import Mathlib

/-!
Verification of the threat-intelligence OSINT pipeline (`pro-test.py`).

The pipeline has three stages:
* `fetch_all_news` — per-source fetching and normalization into a canonical
  article record;
* `detect_harmful_words` — whole-word, case-insensitive lexicon scan over
  free text (regex `\b<word>\b` with `re.IGNORECASE`);
* `full_categorize` — per-article call to an external classifier, parsing of
  its `SENTIMENT=... INTENT=... REASON=...` response, and derivation of the
  `harmful` flag from the intent label alone.

The network calls (`requests.get`, the Gemini client) are modelled as
oracles: functions supplied as parameters whose results range over every
response the environment could produce, including failures (`Option` for the
HTTP fetch, an arbitrary reply string — error placeholders included — for the
classifier).  All string handling is over ASCII-level `Char` lists, mirroring
the CPython semantics of the operations the source actually uses.
-/

/-- Python `a.startswith(b)` / the leading-match test on character lists:
`leadsWith w t` is true iff `w` is an initial segment of `t`. -/
def leadsWith : List Char → List Char → Bool
  | [], _ => true
  | _ :: _, [] => false
  | a :: as, b :: bs => a == b && leadsWith as bs

/-- Python `w in t` (substring containment) on character lists. -/
def substrHit (w : List Char) : List Char → Bool
  | [] => leadsWith w []
  | c :: rest => leadsWith w (c :: rest) || substrHit w rest

/-- Python `tok in s` on strings. -/
def containsTok (tok s : String) : Bool :=
  substrHit tok.data s.data

/-- Python `s.lower()` restricted to ASCII (the lexicon and the tokens the
code matches are ASCII). -/
def pyLower (s : String) : String :=
  ⟨s.data.map Char.toLower⟩

/-- Python `s.startswith(p)`. -/
def pyStartsWith (s p : String) : Bool :=
  leadsWith p.data s.data

/-- A regex word character (`\w` over ASCII): letter, digit or underscore. -/
def isWordChar (c : Char) : Bool :=
  c.isAlphanum || c == '_'

/-- One candidate position for the regex `\b w \b` inside text `t`
(both already lowercased): `w` occurs at index `i`, the character before
index `i` (if any) is not a word character, and the character after the
occurrence (if any) is not a word character. -/
def boundaryHit (w t : List Char) (i : Nat) : Bool :=
  leadsWith w (t.drop i)
    && (i == 0 || !isWordChar (t.getD (i - 1) ' '))
    && (decide (t.length ≤ i + w.length) || !isWordChar (t.getD (i + w.length) ' '))

/-- The call `re.search` on the pattern `\b<word>\b` with `re.IGNORECASE`
succeeds: some position of the lowercased text carries a whole-word
occurrence of the (lowercase) word. -/
def wordBoundaryMatch (w t0 : String) : Bool :=
  let wl := w.data.map Char.toLower
  let tl := t0.data.map Char.toLower
  (List.range (tl.length + 1)).any (fun i => boundaryHit wl tl i)

/-- `HARMFUL_KEYWORDS` from the configuration section of the source. -/
def HARMFUL_KEYWORDS : List String :=
  ["scam", "fraud", "bomb", "attack", "terror", "hack", "threat",
   "arrested", "kill", "bad", "murder", "shoot"]

/-- `detect_harmful_words(text)`: for a falsy text (`None` or the empty
string) the scan is skipped; otherwise every lexicon word is matched with
the whole-word case-insensitive regex and the matches are collected as a
set.  The Python function returns `list(found)` of a set built from the
already-lowercase lexicon words; we return the matched words in lexicon
order, which carries the same set of elements. -/
def detect_harmful_words (text : Option String) : List String :=
  match text with
  | none => []
  | some s =>
      if s = "" then []
      else HARMFUL_KEYWORDS.filter (fun w => wordBoundaryMatch w s)

/-- The keyword-list scan inside `full_categorize`:
`[word for kw in keywords for word in HARMFUL_KEYWORDS if word in str(kw).lower()]`
— a lexicon word is collected whenever it is a substring of the lowercased
keyword (no word-boundary requirement). -/
def harmful_in_keywords (kws : List String) : List String :=
  kws.flatMap (fun kw => HARMFUL_KEYWORDS.filter (fun w => substrHit w.data (pyLower kw).data))

/-- Group 1 of `re.search` on the pattern `<tok>[a-zA-Z0-9]+`: find the leftmost
position where the literal token is followed by at least one alphanumeric
character and return the maximal alphanumeric run after the token
(`none` when the regex does not match anywhere, in which case `.group(1)`
raises `AttributeError` in the source). A failed attempt at one position
falls through to later start positions, exactly as the regex engine
backtracks. -/
def grabLabel (tok : List Char) : List Char → Option (List Char)
  | [] => none
  | c :: rest =>
      match (c :: rest).drop tok.length, leadsWith tok (c :: rest) with
      | a :: after, true =>
          if a.isAlphanum then some ((a :: after).takeWhile Char.isAlphanum)
          else grabLabel tok rest
      | _, _ => grabLabel tok rest

/-- Group 1 of `re.search` on the pattern `REASON=(.*)`: everything after the first
occurrence of the token up to (not including) the next newline, since `.`
does not match `\n`. -/
def grabReason (tok : List Char) : List Char → Option (List Char)
  | [] => none
  | c :: rest =>
      if leadsWith tok (c :: rest) then
        some (((c :: rest).drop tok.length).takeWhile (fun ch => ch ≠ '\n'))
      else grabReason tok rest

/-- Python `s.strip()` over the ASCII whitespace the pipeline can see. -/
def pyStrip (l : List Char) : List Char :=
  ((l.dropWhile Char.isWhitespace).reverse.dropWhile Char.isWhitespace).reverse

/-- The three fields extracted from a classifier reply. -/
structure GeminiParse where
  sentiment_label : String
  intent_label : String
  reason_text : String
deriving DecidableEq, Repr

/-- The response-parsing block of `full_categorize` (lines 193–203 of the
source): the three fields start out empty; only when both the
`SENTIMENT=` and the `INTENT=` token occur in the reply does the code
attempt the three regex extractions, inside one `try`.  A failing
`.group(1)` raises, aborting the remaining assignments, so a reply that
contains `SENTIMENT=` without a following alphanumeric label keeps all
fields empty, and one whose `INTENT=` occurrences all lack a label keeps
the already-assigned sentiment but leaves intent and reason empty. -/
def parseGemini (s : String) : GeminiParse :=
  if containsTok "SENTIMENT=" s && containsTok "INTENT=" s then
    match grabLabel "SENTIMENT=".data s.data with
    | none => ⟨"", "", ""⟩
    | some sent =>
        match grabLabel "INTENT=".data s.data with
        | none => ⟨⟨sent⟩, "", ""⟩
        | some intent =>
            match grabReason "REASON=".data s.data with
            | none => ⟨⟨sent⟩, ⟨intent⟩, ""⟩
            | some r => ⟨⟨sent⟩, ⟨intent⟩, ⟨pyStrip r⟩⟩
  else ⟨"", "", ""⟩

/-- The three `type` values dispatched on in `fetch_all_news`; every value
other than `"wikipedia"` and `"newsdata"` takes the NewsAPI branch, so the
third constructor stands for the whole `else` class. -/
inductive ApiType where
  | wikipedia
  | newsdata
  | newsapi
deriving DecidableEq, Repr

/-- One entry of `API_CONFIGS` (name and credential do not influence the
data flow being verified; the base URL and parameters feed the opaque HTTP
call). -/
structure ApiConfig where
  name : String
  kind : ApiType
deriving DecidableEq, Repr

/-- A JSON value absent from a dict, or present as `null`, both surface as
`None` through `dict.get`; `Option` covers the two. A Wikipedia search hit:
fields read at lines 89–91 of the source. -/
structure WikiItem where
  title : Option String
  snippet : Option String
  pageid : Option String
deriving DecidableEq, Repr

/-- A NewsData.io result record: fields read at lines 102–107. -/
structure NewsDataItem where
  source_id : Option String
  source_name : Option String
  title : Option String
  description : Option String
  link : Option String
  pubDate : Option String
  keywords : Option (List String)
deriving DecidableEq, Repr

/-- A NewsAPI article record: fields read at lines 116–120;
`sourceName` stands for `item.get("source", {}).get("name", "NewsAPI")`
before the default is applied. -/
structure NewsApiItem where
  sourceName : Option String
  title : Option String
  description : Option String
  url : Option String
  publishedAt : Option String
deriving DecidableEq, Repr

/-- The duck-typed response body: a provider branch only reads its own
fields, with the `dict.get` defaults of the source (`query.search` and the
two article lists default to empty, `status` to `None`). -/
structure RawResponse where
  query_search : List WikiItem
  status : Option String
  results : List NewsDataItem
  articles : List NewsApiItem
deriving DecidableEq, Repr

/-- The canonical article dict built by the normalization loops.  Fields
that every branch assigns a definite string keep type `String`; fields a
branch can set to `None` (a `dict.get` with no applied default) are
`Option String`. -/
structure Article where
  source : String
  title : Option String
  description : Option String
  link : Option String
  pub_date : Option String
  keywords : Option (List String)
  api_type : String
deriving DecidableEq, Repr

/-- Python `a or b` for an optional string: `None` and `""` are falsy. -/
def pyOrStr (a : Option String) (b : String) : String :=
  match a with
  | none => b
  | some s => if s = "" then b else s

/-- Python `a or b` for an optional list: `None` and `[]` are falsy. -/
def pyOrList (a : Option (List String)) (b : List String) : List String :=
  match a with
  | none => b
  | some [] => b
  | some l => l

/-- `re.sub("<.*?>", "", s)`: scan for the first unconsumed `<`; the
non-greedy body runs to the first following `>` with no intervening
newline (`.` excludes `\n`).  Returns the remainder after the `>` when the
tag closes, `none` otherwise. -/
def dropToClose : List Char → Option (List Char)
  | [] => none
  | c :: rest =>
      if c = '>' then some rest
      else if c = '\n' then none
      else dropToClose rest

/-- Tag removal over the whole text: each leftmost closable `<...>` span is
deleted; a `<` with no closing `>` before a newline matches nothing and is
kept verbatim.  Recursion is on a fuel argument so that the definition
reduces inside the kernel; every step consumes at least one character
(`dropToClose` returns a strict suffix), so fuel equal to the input length
never runs out. -/
def stripTagsF : Nat → List Char → List Char
  | 0, l => l
  | _ + 1, [] => []
  | fuel + 1, c :: rest =>
      if c = '<' then
        match dropToClose rest with
        | some rest2 => stripTagsF fuel rest2
        | none => c :: stripTagsF fuel rest
      else c :: stripTagsF fuel rest

/-- `re.sub("<.*?>", "", s)` on a character list. -/
def stripTags (l : List Char) : List Char :=
  stripTagsF l.length l

/-- The Wikipedia normalization (lines 87–95). -/
def normalizeWiki (item : WikiItem) : Article :=
  ⟨"Wikipedia",
   item.title,
   some ⟨stripTags (item.snippet.getD "").data⟩,
   some ("https://en.wikipedia.org/?curid=" ++ item.pageid.getD "None"),
   some "",
   some [],
   "wikipedia"⟩

/-- The NewsData.io normalization (lines 101–109). -/
def normalizeND (item : NewsDataItem) : Article :=
  ⟨pyOrStr item.source_id (pyOrStr item.source_name "NewsData.io"),
   item.title,
   some (pyOrStr item.description ""),
   item.link,
   item.pubDate,
   some (pyOrList item.keywords []),
   "news"⟩

/-- The NewsAPI normalization (lines 115–123). -/
def normalizeNA (item : NewsApiItem) : Article :=
  ⟨item.sourceName.getD "NewsAPI",
   item.title,
   some (pyOrStr item.description ""),
   item.url,
   item.publishedAt,
   some [],
   "news"⟩

/-- The per-source parse-and-normalize block (lines 84–123): the article
list a single source contributes, given its decoded response body.  The
NewsData.io and NewsAPI branches discard the whole body (`continue`) when
the top-level `status` differs from their success sentinel. -/
def normalizeSource (t : ApiType) (d : RawResponse) : List Article :=
  match t with
  | .wikipedia => d.query_search.map normalizeWiki
  | .newsdata =>
      if d.status = some "success" then d.results.map normalizeND else []
  | .newsapi =>
      if d.status = some "ok" then d.articles.map normalizeNA else []

/-- What one config adds to `all_articles`: nothing when the `try` block
(request, `raise_for_status`, JSON decode) raised — the `except` branch
logs and `continue`s — and its normalized list otherwise.  The fetch itself
is an oracle covering every environment behaviour. -/
def sourceContribution (fetch : ApiConfig → Option RawResponse) (c : ApiConfig) :
    List Article :=
  match fetch c with
  | none => []
  | some d => normalizeSource c.kind d

/-- `fetch_all_news` (lines 42–129): iterate the configs in order, extend
the accumulator with the contribution of each source. -/
def fetch_all_news (configs : List ApiConfig) (fetch : ApiConfig → Option RawResponse) :
    List Article :=
  (configs.map (sourceContribution fetch)).flatten

/-- The article dict after `full_categorize` mutated it: the incoming
fields (`base`) plus the six keys the loop assigns. -/
structure CatArticle where
  base : Article
  harmful : Bool
  harmful_words : List String
  gemini_sentiment : String
  gemini_intent : String
  gemini_reason : String
  gemini_raw : String
deriving DecidableEq, Repr

/-- The body of the `full_categorize` loop (lines 175–215) for one
article.  `gem` is the oracle for `fetch_from_gemini_sentiment_intent`:
it receives the composed text and the joined harm-word string and returns
whatever the call produced — a genuine reply or the
`"[Gemini API error: ...]"` placeholder built by its `except` branch.
`harmful_words` keeps one copy of each detected word (the source stores
them in a Python `set`; we keep first-occurrence order, the same set of
elements).  The `harmful` flag is `intent_label.startswith("harmful")`. -/
def categorizeOne (gem : String → String → String) (a : Article) : CatArticle :=
  let hwTitle := detect_harmful_words a.title
  let hwDesc := detect_harmful_words a.description
  let hwKw := harmful_in_keywords (a.keywords.getD [])
  let harmfulWords := (hwTitle ++ hwDesc ++ hwKw).dedup
  let text := a.title.getD "" ++ ". " ++ a.description.getD ""
  let raw := gem text
    (if harmfulWords.isEmpty then "None" else String.intercalate ", " harmfulWords)
  let p := parseGemini raw
  ⟨a, pyStartsWith p.intent_label "harmful", harmfulWords,
   p.sentiment_label, p.intent_label, p.reason_text, raw⟩

/-- `full_categorize(articles)`: the loop visits the articles in order,
enriches each in place and appends it to the output list. -/
def full_categorize (gem : String → String → String) (articles : List Article) :
    List CatArticle :=
  articles.map (categorizeOne gem)

theorem leadsWith_iff (w t : List Char) : leadsWith w t = true ↔ w <+: t := by
  induction w generalizing t with
  | nil => simp [leadsWith]
  | cons a as ih =>
      cases t with
      | nil => simp [leadsWith]
      | cons b bs =>
          simp [leadsWith, ih, List.cons_prefix_cons]

theorem categorizeOne_base (gem : String → String → String) (a : Article) :
    (categorizeOne gem a).base = a := rfl

/-- Sample article used to instantiate universally quantified theorems. -/
def artSample : Article :=
  ⟨"Wikipedia", some "Scam alert", some "a bad scam", some "https://x", some "",
   some [], "wikipedia"⟩

/-- A classifier oracle that always answers with a well-formed reply. -/
def gSafe : String → String → String :=
  fun _ _ => "SENTIMENT=neutral INTENT=harmless1 REASON=ok"

/-- A classifier oracle that always fails, answering with the error
placeholder `fetch_from_gemini_sentiment_intent` builds in its `except`
branch. -/
def gErr : String → String → String :=
  fun _ _ => "[Gemini API error: 500]"

/-- C1: the `harmful` field equals the test that the parsed intent label
begins with the literal prefix `"harmful"`, and the flag is a function of
the intent label alone — two categorizer outputs with the same intent
label carry the same flag no matter what their harmful-word sets are. -/
theorem C1_harmful_iff_intent (gem gem2 : String → String → String) (a a2 : Article) :
    ((categorizeOne gem a).harmful = true ↔
      "harmful".data <+: (categorizeOne gem a).gemini_intent.data) ∧
    ((categorizeOne gem2 a2).gemini_intent = (categorizeOne gem a).gemini_intent →
      (categorizeOne gem2 a2).harmful = (categorizeOne gem a).harmful) := by
  constructor
  · exact leadsWith_iff "harmful".data (categorizeOne gem a).gemini_intent.data
  · intro h
    show pyStartsWith (categorizeOne gem2 a2).gemini_intent "harmful" =
      pyStartsWith (categorizeOne gem a).gemini_intent "harmful"
    rw [h]

theorem C1_harmful_iff_intent_witness :
    (((categorizeOne gSafe artSample).harmful = true ↔
      "harmful".data <+: (categorizeOne gSafe artSample).gemini_intent.data) ∧
    (categorizeOne gSafe artSample).harmful = (categorizeOne gSafe artSample).harmful) :=
  ⟨(C1_harmful_iff_intent gSafe gSafe artSample artSample).1,
   (C1_harmful_iff_intent gSafe gSafe artSample artSample).2 rfl⟩

/-- C2: whenever the classifier reply lacks the `SENTIMENT=` token or the
`INTENT=` token — the error placeholder included — the parse yields three
empty fields, and every categorizer output whose raw reply it was carries
empty sentiment/intent/reason and `harmful = false`. -/
theorem C2_missing_token (resp : String)
    (h : containsTok "SENTIMENT=" resp = false ∨ containsTok "INTENT=" resp = false) :
    parseGemini resp = ⟨"", "", ""⟩ ∧
    ∀ (gem : String → String → String) (a : Article),
      (categorizeOne gem a).gemini_raw = resp →
      (categorizeOne gem a).gemini_sentiment = "" ∧
      (categorizeOne gem a).gemini_intent = "" ∧
      (categorizeOne gem a).gemini_reason = "" ∧
      (categorizeOne gem a).harmful = false := by
  have hg : (containsTok "SENTIMENT=" resp && containsTok "INTENT=" resp) = false := by
    rcases h with h | h <;> simp [h]
  have hp : parseGemini resp = ⟨"", "", ""⟩ := by
    simp [parseGemini, hg]
  refine ⟨hp, ?_⟩
  intro gem a hraw
  have hs : (categorizeOne gem a).gemini_sentiment =
      (parseGemini (categorizeOne gem a).gemini_raw).sentiment_label := rfl
  have hi : (categorizeOne gem a).gemini_intent =
      (parseGemini (categorizeOne gem a).gemini_raw).intent_label := rfl
  have hr : (categorizeOne gem a).gemini_reason =
      (parseGemini (categorizeOne gem a).gemini_raw).reason_text := rfl
  have hh : (categorizeOne gem a).harmful =
      pyStartsWith (parseGemini (categorizeOne gem a).gemini_raw).intent_label "harmful" := rfl
  rw [hraw, hp] at hs hi hr hh
  exact ⟨hs, hi, hr, hh⟩

theorem C2_missing_token_witness :
    parseGemini "[Gemini API error: 500]" = ⟨"", "", ""⟩ ∧
    (categorizeOne gErr artSample).harmful = false :=
  ⟨(C2_missing_token "[Gemini API error: 500]" (Or.inl (by decide))).1,
   ((C2_missing_token "[Gemini API error: 500]" (Or.inl (by decide))).2
     gErr artSample rfl).2.2.2⟩

/-- The exact reply string of the C6 fixture. -/
def respC6 : String :=
  "SENTIMENT=negative2 INTENT=harmful2 REASON=high risk scam language"

/-- An article with no content, used to drive the categorizer with a fixed
classifier reply. -/
def artEmpty : Article :=
  ⟨"", none, none, none, none, none, ""⟩

/-- C6: the fixture reply parses to sentiment `negative2`, intent
`harmful2`, reason `high risk scam language`, and the derived harmful flag
is true. -/
theorem C6_concrete_parse :
    parseGemini respC6 = ⟨"negative2", "harmful2", "high risk scam language"⟩ ∧
    (categorizeOne (fun _ _ => respC6) artEmpty).harmful = true := by
  decide

/-- C3: when the source in the middle of the configuration list fails to
fetch (network error, timeout, non-2xx or undecodable body — every case
the oracle maps to `none`), the aggregate equals the concatenation of what
the sources before and after it produce, in configuration order; the
failed source contributes nothing, and `fetch_all_news` is a total
function, so no exception escapes. -/
theorem C3_partial_failure (pre post : List ApiConfig) (bad : ApiConfig)
    (fetch : ApiConfig → Option RawResponse) (h : fetch bad = none) :
    fetch_all_news (pre ++ bad :: post) fetch =
      fetch_all_news pre fetch ++ fetch_all_news post fetch := by
  simp [fetch_all_news, sourceContribution, h]

/-- A Wikipedia config, a NewsData.io config and a NewsAPI config, as in
`API_CONFIGS`. -/
def cfgWiki : ApiConfig := ⟨"Wikipedia", ApiType.wikipedia⟩

def cfgND : ApiConfig := ⟨"NewsData.io", ApiType.newsdata⟩

def cfgNA : ApiConfig := ⟨"NewsAPI", ApiType.newsapi⟩

/-- A concrete environment where the NewsData.io fetch raises and the two
other sources answer with one record each. -/
def fetchSample : ApiConfig → Option RawResponse := fun c =>
  match c.kind with
  | ApiType.wikipedia =>
      some ⟨[⟨some "Scam wave", some "a <b>scam</b> wave", some "7"⟩], none, [], []⟩
  | ApiType.newsdata => none
  | ApiType.newsapi =>
      some ⟨[], some "ok", [], [⟨some "Daily", some "Fraud case", some "d", some "u", some "p"⟩]⟩

theorem C3_partial_failure_witness :
    fetch_all_news ([cfgWiki] ++ cfgND :: [cfgNA]) fetchSample =
      fetch_all_news [cfgWiki] fetchSample ++ fetch_all_news [cfgNA] fetchSample :=
  C3_partial_failure [cfgWiki] [cfgNA] cfgND fetchSample rfl

/-- C4: membership in the result of `detect_harmful_words` is exactly
"lexicon word with a whole-word, case-insensitive, word-boundary
occurrence in the text"; the result never repeats a word; the fixture
text `"This is a scam alert"` yields exactly `{"scam"}`; and `"scammer"`
yields nothing — in particular it does not yield `"scam"`. -/
theorem C4_whole_word (t w : String) :
    (w ∈ detect_harmful_words (some t) ↔
      w ∈ HARMFUL_KEYWORDS ∧ wordBoundaryMatch w t = true) ∧
    (detect_harmful_words (some t)).Nodup ∧
    detect_harmful_words (some "This is a scam alert") = ["scam"] ∧
    detect_harmful_words (some "scammer") = [] := by
  refine ⟨?_, ?_, by decide, by decide⟩
  · by_cases ht : t = ""
    · subst ht
      simp only [detect_harmful_words, if_pos rfl]
      constructor
      · intro h
        cases h
      · rintro ⟨hmem, hmatch⟩
        fin_cases hmem <;> exact absurd hmatch (by decide)
    · simp [detect_harmful_words, ht, List.mem_filter]
  · by_cases ht : t = ""
    · subst ht
      simp [detect_harmful_words]
    · simp only [detect_harmful_words, if_neg ht]
      exact List.Nodup.filter _ (by decide)

/-- C5: every article any provider branch of the normalizer emits — for
any response body, any combination of missing fields — carries a present
(non-`None`) description and a present keyword list. -/
theorem C5_no_null_desc_keywords (t : ApiType) (d : RawResponse) (a : Article)
    (h : a ∈ normalizeSource t d) :
    a.description.isSome = true ∧ a.keywords.isSome = true := by
  cases t with
  | wikipedia =>
      simp only [normalizeSource, List.mem_map] at h
      obtain ⟨item, -, rfl⟩ := h
      exact ⟨rfl, rfl⟩
  | newsdata =>
      simp only [normalizeSource] at h
      split at h
      · simp only [List.mem_map] at h
        obtain ⟨item, -, rfl⟩ := h
        exact ⟨rfl, rfl⟩
      · cases h
  | newsapi =>
      simp only [normalizeSource] at h
      split at h
      · simp only [List.mem_map] at h
        obtain ⟨item, -, rfl⟩ := h
        exact ⟨rfl, rfl⟩
      · cases h

/-- A NewsData.io record with every field absent (or `null`). -/
def ndItemBare : NewsDataItem := ⟨none, none, none, none, none, none, none⟩

/-- A success-status NewsData.io body whose only record is the bare one. -/
def ndRespBare : RawResponse := ⟨[], some "success", [ndItemBare], []⟩

theorem C5_no_null_desc_keywords_witness :
    (normalizeND ndItemBare).description.isSome = true ∧
    (normalizeND ndItemBare).keywords.isSome = true :=
  C5_no_null_desc_keywords ApiType.newsdata ndRespBare (normalizeND ndItemBare) (by decide)

/-- C7 counterexample: a NewsData.io record that omits the title field is
normalized into an article whose title is `None` — the title is read with
a bare `item.get("title")`, no default applied, in all three branches.
The same happens for the Wikipedia and NewsAPI branches. -/
theorem C7_title_counterexample :
    ∃ a ∈ normalizeSource ApiType.newsdata ndRespBare, a.title = none := by
  exact ⟨normalizeND ndItemBare, by decide, rfl⟩

/-- C7 amended: the normalizer passes the provider title through verbatim
— the provider-given string when present, `None` when the provider omits
it; unlike description and keywords, no default is applied to the
title. -/
theorem C7_title_passthrough (t : ApiType) (d : RawResponse) :
    (normalizeSource t d).map Article.title =
      match t with
      | ApiType.wikipedia => d.query_search.map WikiItem.title
      | ApiType.newsdata =>
          if d.status = some "success" then d.results.map NewsDataItem.title else []
      | ApiType.newsapi =>
          if d.status = some "ok" then d.articles.map NewsApiItem.title else [] := by
  cases t with
  | wikipedia =>
      simp only [normalizeSource, List.map_map]
      rfl
  | newsdata =>
      simp only [normalizeSource]
      split
      · simp only [List.map_map]
        rfl
      · rfl
  | newsapi =>
      simp only [normalizeSource]
      split
      · simp only [List.map_map]
        rfl
      · rfl

/-- C8: the keyword-list scan collects a lexicon word exactly when it is a
case-insensitive substring of some keyword — no word-boundary requirement
— so the keyword `"scammer"` does match the term `"scam"`, while the
whole-word free-text rule on the same string matches nothing. -/
theorem C8_keyword_substring (kws : List String) (w : String) :
    (w ∈ harmful_in_keywords kws ↔
      w ∈ HARMFUL_KEYWORDS ∧ ∃ kw ∈ kws, substrHit w.data (pyLower kw).data = true) ∧
    harmful_in_keywords ["scammer"] = ["scam"] ∧
    detect_harmful_words (some "scammer") = [] := by
  refine ⟨?_, by decide, by decide⟩
  simp only [harmful_in_keywords, List.mem_flatMap, List.mem_filter]
  tauto

/-- C9: the aggregate over a split configuration list is the aggregate of
the first part followed by the aggregate of the second (source order is
configuration order, the block of each source keeping its emission order), and
categorization maps the list position-wise: same length, and stripping
the added classification fields recovers the input list unchanged — no
reorder, no drop, no insertion. -/
theorem C9_order_preserved (cs1 cs2 : List ApiConfig)
    (fetch : ApiConfig → Option RawResponse)
    (gem : String → String → String) (arts : List Article) :
    fetch_all_news (cs1 ++ cs2) fetch =
      fetch_all_news cs1 fetch ++ fetch_all_news cs2 fetch ∧
    (full_categorize gem arts).length = arts.length ∧
    (full_categorize gem arts).map CatArticle.base = arts := by
  refine ⟨by simp [fetch_all_news], by simp [full_categorize], ?_⟩
  simp [full_categorize, List.map_map, Function.comp_def, categorizeOne_base]

/-- C10: a NewsAPI response whose top-level status is anything but the
literal `"ok"` — even though the HTTP fetch succeeded — is discarded with
a warning: that source contributes no articles and the aggregate is
exactly what the other sources produce, mirroring the status-sentinel
rule of the NewsData.io branch. -/
theorem C10_newsapi_status (c : ApiConfig) (d : RawResponse) (pre post : List ApiConfig)
    (fetch : ApiConfig → Option RawResponse)
    (hc : c.kind = ApiType.newsapi) (hf : fetch c = some d)
    (hs : d.status ≠ some "ok") :
    normalizeSource ApiType.newsapi d = [] ∧
    fetch_all_news (pre ++ c :: post) fetch =
      fetch_all_news pre fetch ++ fetch_all_news post fetch := by
  have h1 : normalizeSource ApiType.newsapi d = [] := by
    simp [normalizeSource, hs]
  refine ⟨h1, ?_⟩
  simp [fetch_all_news, sourceContribution, hf, hc, h1]

/-- A NewsAPI body that decodes but reports `status = "error"`. -/
def naRespError : RawResponse :=
  ⟨[], some "error", [], [⟨some "Daily", some "T", some "D", some "u", some "p"⟩]⟩

/-- An environment where every source answers, but the NewsAPI body
carries the failing status. -/
def fetchNAError : ApiConfig → Option RawResponse := fun c =>
  match c.kind with
  | ApiType.wikipedia => some ⟨[⟨some "T", some "S", some "1"⟩], none, [], []⟩
  | ApiType.newsdata => some ⟨[], some "success", [ndItemBare], []⟩
  | ApiType.newsapi => some naRespError

theorem C10_newsapi_status_witness :
    normalizeSource ApiType.newsapi naRespError = [] ∧
    fetch_all_news ([cfgWiki] ++ cfgNA :: [cfgND]) fetchNAError =
      fetch_all_news [cfgWiki] fetchNAError ++ fetch_all_news [cfgND] fetchNAError :=
  C10_newsapi_status cfgNA naRespError [cfgWiki] [cfgND] fetchNAError rfl rfl (by decide)
